import Mathlib

/-!
Verification development for the calibration driver
`src/main/python/calibration/calibrate.py` of matsim-episim-libs.

Numeric data is modelled by `ℚ` (the finite floating-point values occurring in
the data); where numpy/pandas division-by-zero semantics matter (inf/NaN
instead of an exception) the value type `Fp` makes the non-finite outcomes
explicit.  Fallible steps (missing districts/days, library exceptions) are
modelled with `Except CalibError` / `Option`.
-/

/-- Error taxonomy of the spec (section 7).  `domainError` stands for the
`ValueError` that sklearn raises on a violated mathematical precondition,
`dataError` for a missing district/day/file (pandas `TypeError`/`KeyError`
on an empty selection), `externalProcessError` for an abnormal simulator
subprocess exit. -/
inductive CalibError where
  | configError
  | externalProcessError
  | dataError
  | domainError
deriving DecidableEq, Repr

/-- Floating-point-style values: the finite values are kept exact as `ℚ`;
`posInf`, `negInf` and `nan` are the non-finite IEEE values that numpy and
pandas produce instead of raising on division by zero. -/
inductive Fp where
  | finite (q : ℚ)
  | posInf
  | negInf
  | nan
deriving DecidableEq, Repr

def Fp.isFinite : Fp → Bool
  | .finite _ => true
  | _ => false

/-- IEEE-style division as numpy/pandas perform it: a nonzero finite value
divided by zero is a signed infinity, zero by zero is NaN; no exception is
raised.  (The model has no signed zero; zero behaves as +0.) -/
def Fp.div : Fp → Fp → Fp
  | .nan, _ => .nan
  | _, .nan => .nan
  | .finite a, .finite b =>
      if b = 0 then (if 0 < a then .posInf else if a < 0 then .negInf else .nan)
      else .finite (a / b)
  | .finite _, .posInf => .finite 0
  | .finite _, .negInf => .finite 0
  | .posInf, .finite b => if 0 ≤ b then .posInf else .negInf
  | .negInf, .finite b => if 0 ≤ b then .negInf else .posInf
  | .posInf, .posInf => .nan
  | .posInf, .negInf => .nan
  | .negInf, .posInf => .nan
  | .negInf, .negInf => .nan

/-! ## Data Loader (`read_data`, lines 13-30)

The derived series of `read_data`: `cases = nShowingSymptomsCumulative.diff(1)`
(line 19), `casesSmoothed = cases.rolling(window).mean()` (line 20) and
`casesNorm = casesSmoothed / casesSmoothed.mean()` (line 21).  A series is a
`List (Option ℚ)`; `none` is pandas `NaN`. -/

/-- `Series.diff(1)`: the first entry is `NaN`, entry `i>0` is
`l[i] - l[i-1]` (line 19). -/
def diff1 (l : List ℚ) : List (Option ℚ) :=
  match l with
  | [] => []
  | _ :: t => none :: List.zipWith (fun prev cur => some (cur - prev)) l t

/-- One entry of `Series.rolling(w).mean()`: entry `i` averages the trailing
window `l[i+1-w .. i]`; with the default `min_periods = w` the result is `NaN`
unless the window is complete and free of `NaN` (line 20). -/
def windowMeanO (w : Nat) (l : List (Option ℚ)) (i : Nat) : Option ℚ :=
  if w ≤ i + 1 then
    let win := (l.drop (i + 1 - w)).take w
    if win.all Option.isSome then some ((win.filterMap id).sum / (w : ℚ)) else none
  else none

/-- `Series.rolling(w).mean()` (line 20): trailing window of size `w`,
incomplete windows at the start give `NaN`, not zero-padded values. -/
def rollingMeanO (w : Nat) (l : List (Option ℚ)) : List (Option ℚ) :=
  (List.range l.length).map (windowMeanO w l)

/-- `Series.mean()` with pandas' default `skipna=True`: the mean of the
non-`NaN` entries (line 21). -/
def meanO (l : List (Option ℚ)) : ℚ :=
  (l.filterMap id).sum / ((l.filterMap id).length : ℚ)

/-- `casesNorm = casesSmoothed / casesSmoothed.mean()` (line 21): each valid
entry divided by the full-series mean; `NaN` entries stay `NaN`. -/
def normalizeO (l : List (Option ℚ)) : List (Option ℚ) :=
  l.map (Option.map (fun x => x / meanO l))

/-- The composite `df` pipeline of `read_data` (lines 19-21) from the
cumulative symptomatic counts to the normalized series. -/
def casesNormOf (w : Nat) (cumulative : List ℚ) : List (Option ℚ) :=
  normalizeO (rollingMeanO w (diff1 cumulative))

/-! ## Error Metrics -/

/-- `percentage_error` (lines 33-42): elementwise over the paired entries;
`|actual[j]| >= 15` divides by `actual[j]`, smaller magnitudes divide by
`np.mean(actual)` instead.  The divisions are numpy float divisions, hence
`Fp`-valued: a zero denominator silently yields inf/NaN. -/
def percentage_error (actual predicted : List ℚ) : List Fp :=
  (actual.zip predicted).map fun q =>
    if 15 ≤ |q.1| then Fp.div (Fp.finite (q.1 - q.2)) (Fp.finite q.1)
    else Fp.div (Fp.finite (q.1 - q.2)) (Fp.finite (actual.sum / (actual.length : ℚ)))

/-- Embeds `sklearn.metrics.mean_squared_log_error` as imported at line 10 and
applied at lines 78-84: the value is `mean((log(1+t) - log(1+p))^2)` and the
library raises `ValueError` when any input value is strictly negative (zeros
are accepted) or when the lengths differ.  `CalibError.domainError` stands for
the negativity `ValueError`. -/
noncomputable def mean_squared_log_error (y_true y_pred : List ℚ) : Except CalibError ℝ :=
  if y_true.length ≠ y_pred.length then Except.error CalibError.dataError
  else if y_true.any (fun x => x < 0) || y_pred.any (fun x => x < 0) then
    Except.error CalibError.domainError
  else Except.ok
    ((((y_true.zip y_pred).map fun q =>
        (Real.log (1 + (q.1 : ℝ)) - Real.log (1 + (q.2 : ℝ))) ^ 2).sum) / (y_true.length : ℝ))

/-- The Dunkelziffer line of `calc_multi_error` (line 87):
`dz = float(df.nContagiousCumulative.tail(1) / rki.casesCumulative.tail(1))`,
with the two one-row tails aligned on the same date index.  The division is a
pandas float division (`Fp.div`); `none` models `float()` failing on an empty
selection. -/
def darkFigure (simContagiousCumulative reportedCasesCumulative : List ℚ) : Option Fp :=
  match simContagiousCumulative.getLast?, reportedCasesCumulative.getLast? with
  | some a, some b => some (Fp.div (Fp.finite a) (Fp.finite b))
  | _, _ => none

/-- The rate-collection loop of `infection_rate` (lines 55-60): for each listed
day `i` look up `nTotalInfected` at `i - target_interval` and at `i` and record
`today / prev`; a missing day makes `float()` fail on an empty selection
(modelled `CalibError.dataError`), aborting the loop. -/
def rates_loop (s : Nat → Option ℚ) (ti : Nat) : List Nat → Except CalibError (List ℚ)
  | [] => Except.ok []
  | i :: rest =>
    match s (i - ti), s i with
    | some prev, some today =>
        match rates_loop s ti rest with
        | Except.ok rs => Except.ok (today / prev :: rs)
        | Except.error e => Except.error e
    | _, _ => Except.error CalibError.dataError

/-- `infection_rate` (lines 49-64): over days 25..39 (python `range(25, 40)`),
the ratio of `nTotalInfected` at day `i` to day `i - target_interval`;
returns the mean of the ratios and the mean squared deviation from
`target_rate`.  The series `s` is the district-filtered day-indexed
`nTotalInfected` column (one row per day). -/
def infection_rate (s : Nat → Option ℚ) (target_rate : ℚ) (target_interval : Nat) :
    Except CalibError (ℚ × ℚ) :=
  match rates_loop s target_interval ((List.range 15).map (fun j => j + 25)) with
  | Except.error e => Except.error e
  | Except.ok rates =>
      Except.ok (rates.sum / (rates.length : ℚ),
        ((rates.map fun r => (r - target_rate) ^ 2).sum) / (rates.length : ℚ))

/-! ## Simulator invocation (command-line construction) -/

/-- Renders the natural number `m` (the rounded value scaled by `10^prec`)
with a decimal point placed `prec` digits from the right, zero-padded so that
at least one digit precedes the point. -/
def padDigits (m prec : Nat) : String :=
  let ds := Nat.toDigits 10 m
  let ds := List.replicate (prec + 1 - ds.length) '0' ++ ds
  String.mk (ds.take (ds.length - prec)) ++ "." ++ String.mk (ds.drop (ds.length - prec))

/-- Python `"%.<prec>f" % q` on the exact values used here: the absolute value
scaled by `10^prec` and rounded half-up (the floor of `|q|·10^prec + 1/2`),
printed with `prec` digits after the point.  (CPython rounds the binary double
half-to-even; the two agree on the exactly-representable values at which this
formatter is evaluated below.) -/
def formatFixed (q : ℚ) (prec : Nat) : String :=
  let scaled : ℚ := |q| * 10 ^ prec + 1 / 2
  (if q < 0 then "-" else "") ++ padDigits (scaled.num.toNat / scaled.den) prec

/-- The command string of `objective_unconstrained` (line 101). -/
def cmd_unconstrained (scenario : String) (n : Nat) (c : ℚ) : String :=
  "java -jar matsim-episim-1.0-SNAPSHOT.jar scenarioCreation trial " ++ scenario
    ++ " --number " ++ toString n ++ " --unconstrained --calibParameter " ++ formatFixed c 12

/-- The command string of `objective_ci_correction` (lines 126-128).  The
source builds it from three adjacent python string literals; the third literal
starts with `"--start"` without a leading space, so the formatted correction
value is immediately followed by `--start`. -/
def cmd_ci_correction (scenario : String) (n : Nat) (correction : ℚ) (start : String) : String :=
  "java -Xmx5G -jar matsim-episim-1.0-SNAPSHOT.jar scenarioCreation trial " ++ scenario
    ++ " --days 14 --number " ++ toString n ++ " --correction " ++ formatFixed correction 3
    ++ "--start " ++ start

/-- The command string of `objective_multi` (lines 165-167). -/
def cmd_multi (scenario : String) (n : Nat) (alpha correction : ℚ) : String :=
  "java -Xmx5G -jar matsim-episim-1.0-SNAPSHOT.jar scenarioCreation trial " ++ scenario
    ++ " --days 75 --number " ++ toString n ++ " --alpha " ++ formatFixed alpha 3
    ++ " --correction " ++ formatFixed correction 3 ++ " --start \"2020-03-08\""

/-! ## Study Orchestrator (`__main__`, lines 184-220) -/

/-- The three objective functions defined in the module. -/
inductive ObjectiveFn where
  | objectiveUnconstrained
  | objectiveCiCorrection
  | objectiveMulti
deriving DecidableEq, Repr

/-- The admissible values of the `--objective` CLI flag (line 195). -/
def objectiveChoices : List String :=
  ["unconstrained", "ci_correction", "multi"]

/-- The objective dispatch of line 218:
`objective = objective_multi if args.objective == "multi" else objective_unconstrained`. -/
def selectObjective (mode : String) : ObjectiveFn :=
  if mode = "multi" then ObjectiveFn.objectiveMulti else ObjectiveFn.objectiveUnconstrained

/-! ## Objective function control flow (`objective_unconstrained`, lines 92-109) -/

/-- Per-trial inputs of `objective_unconstrained`: the trial number, the study
attributes, and the value the optimizer returns from `suggest_uniform`. -/
structure TrialCtx where
  number : Nat
  scenario : String
  district : String
  calibrationParameter : ℚ
deriving DecidableEq, Repr

/-- The external world of one trial: the exit status the simulator subprocess
returns to `subprocess.run` (line 104), and the content of
`output-calibration-unconstrained/<n>/infections.txt` as the district-filtered
day-indexed `nTotalInfected` column (`none` when the file is missing or
unreadable). -/
structure SimEnv where
  exitCode : Int
  infectionsOut : Option (Nat → Option ℚ)

/-- Control flow of `objective_unconstrained` (lines 92-109): build the command
(line 101), run it with `subprocess.run(cmd, shell=True)` — whose returned exit
status `env.exitCode` the source never inspects — then score the produced file
with `infection_rate` and return the mean-squared-error component (the mean
rate is recorded via `set_user_attr`, a side channel not modelled here). -/
def objective_unconstrained (ctx : TrialCtx) (env : SimEnv) : Except CalibError ℚ :=
  let _cmd := cmd_unconstrained ctx.scenario ctx.number ctx.calibrationParameter
  match env.infectionsOut with
  | none => Except.error CalibError.dataError
  | some s =>
      match infection_rate s 2 3 with
      | Except.error e => Except.error e
      | Except.ok re => Except.ok re.2

/-! ## Concrete witness data -/

/-- A day-indexed series with exact twofold growth every three days:
day `d` holds `2 ^ (d / 3)`. -/
def wGrowth : Nat → Option ℚ := fun d => some ((2 : ℚ) ^ (d / 3))

/-! ## Theorems -/

/-- C1: the Study Orchestrator's objective dispatch (line 218) sends mode
`multi` to the multi objective but sends mode `ci_correction` — an admissible
CLI choice — to the unconstrained objective, never to `objective_ci_correction`.
This evaluates the dispatch at the failing input `ci_correction`. -/
theorem selectObjective_dispatch :
    "ci_correction" ∈ objectiveChoices
    ∧ selectObjective "ci_correction" = ObjectiveFn.objectiveUnconstrained
    ∧ selectObjective "ci_correction" ≠ ObjectiveFn.objectiveCiCorrection
    ∧ selectObjective "unconstrained" = ObjectiveFn.objectiveUnconstrained
    ∧ selectObjective "multi" = ObjectiveFn.objectiveMulti := by
  refine ⟨by decide, rfl, by decide, rfl, rfl⟩

/-- For a nonnegative rational bracketed between `m` and `m + 1`, the integer
part extracted inside `formatFixed` is exactly `m`. -/
theorem ratFloorNat (x : ℚ) (m : Nat) (h0 : 0 ≤ x) (h1 : (m : ℚ) ≤ x) (h2 : x < m + 1) :
    x.num.toNat / x.den = m := by
  have hz : ⌊x⌋ = (m : ℤ) := by
    have ha : (m : ℤ) ≤ ⌊x⌋ := Int.le_floor.mpr (by exact_mod_cast h1)
    have hb : ⌊x⌋ < (m : ℤ) + 1 := Int.floor_lt.mpr (by exact_mod_cast h2)
    omega
  have hnum : (0 : ℤ) ≤ x.num := Rat.num_nonneg.mpr h0
  have hcast : ((x.num.toNat / x.den : Nat) : ℤ) = (m : ℤ) := by
    rw [Int.natCast_div, Int.toNat_of_nonneg hnum, ← Rat.floor_def, hz]
  exact_mod_cast hcast

/-- `formatFixed` evaluated through the bracketing of its scaled argument. -/
theorem formatFixed_eq (q : ℚ) (prec m : Nat) (hq : 0 ≤ q)
    (h1 : (m : ℚ) ≤ q * 10 ^ prec + 1 / 2) (h2 : q * 10 ^ prec + 1 / 2 < m + 1) :
    formatFixed q prec = padDigits m prec := by
  have habs : |q| = q := abs_of_nonneg hq
  have hpos : (0 : ℚ) ≤ q * 10 ^ prec + 1 / 2 := by positivity
  rw [formatFixed]
  simp only [habs]
  rw [ratFloorNat _ m hpos h1 h2, if_neg (not_lt.mpr hq)]
  rfl

/-- C9: evaluation of the three command builders at concrete parameter values.
`objective_unconstrained` formats the calibration constant to 12 decimals and
`objective_multi` space-separates every flag, but `objective_ci_correction`
(lines 126-128) emits `--correction 0.500--start 2020-03-10`: the formatted
correction value and the `--start` flag merge into a single token because the
third python string literal lacks a leading space. -/
theorem cmd_builders_eval :
    cmd_unconstrained "S" 1 (1 / 500000) =
      "java -jar matsim-episim-1.0-SNAPSHOT.jar scenarioCreation trial S --number 1 --unconstrained --calibParameter 0.000002000000"
    ∧ cmd_multi "S" 3 (3 / 2) (1 / 2) =
      "java -Xmx5G -jar matsim-episim-1.0-SNAPSHOT.jar scenarioCreation trial S --days 75 --number 3 --alpha 1.500 --correction 0.500 --start \"2020-03-08\""
    ∧ cmd_ci_correction "S" 0 (1 / 2) "2020-03-10" =
      "java -Xmx5G -jar matsim-episim-1.0-SNAPSHOT.jar scenarioCreation trial S --days 14 --number 0 --correction 0.500--start 2020-03-10" := by
  have h12 : formatFixed (1 / 500000) 12 = padDigits 2000000 12 :=
    formatFixed_eq (1 / 500000) 12 2000000 (by norm_num) (by norm_num) (by norm_num)
  have h32 : formatFixed (3 / 2) 3 = padDigits 1500 3 :=
    formatFixed_eq (3 / 2) 3 1500 (by norm_num) (by norm_num) (by norm_num)
  have h2 : formatFixed (1 / 2) 3 = padDigits 500 3 :=
    formatFixed_eq (1 / 2) 3 500 (by norm_num) (by norm_num) (by norm_num)
  refine ⟨?_, ?_, ?_⟩
  · rw [cmd_unconstrained, h12]; rfl
  · rw [cmd_multi, h32, h2]; rfl
  · rw [cmd_ci_correction, h2]; rfl

/-- C4 counterexample: with final simulated value 8 and final reported
cumulative value 0, the Dunkelziffer computation returns the value `+inf`
(pandas float division) instead of failing with a `DomainError`. -/
theorem darkFigure_zero_denominator :
    darkFigure [3, 8] [2, 0] = some Fp.posInf := by
  rfl

/-- C4 (amended): the dark-figure ratio is the last simulated
cumulative-contagious value divided by the last reported cumulative value;
when the reported denominator is zero the pandas division yields a signed
infinity (NaN for 0/0) rather than an error. -/
theorem darkFigure_spec :
    ∀ (sim rep : List ℚ) (a b : ℚ),
      sim.getLast? = some a → rep.getLast? = some b →
      (b ≠ 0 → darkFigure sim rep = some (Fp.finite (a / b)))
      ∧ (b = 0 → darkFigure sim rep =
          some (if 0 < a then Fp.posInf else if a < 0 then Fp.negInf else Fp.nan)) := by
  intro sim rep a b ha hb
  constructor
  · intro hbne
    simp only [darkFigure, ha, hb, Fp.div, if_neg hbne]
  · intro hbz
    simp only [darkFigure, ha, hb, Fp.div, if_pos hbz]

/-- Witness for `darkFigure_spec` at a concrete input. -/
theorem darkFigure_spec_witness :
    darkFigure [3, 8] [2, 4] = some (Fp.finite (8 / 4)) :=
  (darkFigure_spec [3, 8] [2, 4] 8 4 rfl rfl).1 (by norm_num)

/-- If every listed day pair carries an exact ratio `c`, the rate-collection
loop succeeds and yields the constant list of `c`s. -/
theorem rates_loop_ok (s : Nat → Option ℚ) (ti : Nat) (c : ℚ) :
    ∀ l : List Nat,
      (∀ i ∈ l, ∃ v, v ≠ 0 ∧ s (i - ti) = some v ∧ s i = some (c * v)) →
      rates_loop s ti l = Except.ok (List.replicate l.length c) := by
  intro l
  induction l with
  | nil => intro _; rfl
  | cons a t ih =>
    intro h
    obtain ⟨v, hv, hprev, htoday⟩ := h a (List.mem_cons_self a t)
    have ht := ih (fun i hi => h i (List.mem_cons_of_mem a hi))
    simp only [rates_loop, hprev, htoday, ht, List.length_cons, List.replicate_succ]
    rw [mul_div_cancel_right₀ c hv]

/-- Any error produced by the rate-collection loop is the missing-day
`dataError`; in particular the loop either succeeds or fails with it. -/
theorem rates_loop_cases (s : Nat → Option ℚ) (ti : Nat) :
    ∀ l : List Nat,
      (∃ rs, rates_loop s ti l = Except.ok rs)
      ∨ rates_loop s ti l = Except.error CalibError.dataError := by
  intro l
  induction l with
  | nil => exact Or.inl ⟨[], rfl⟩
  | cons a t ih =>
    cases hp : s (a - ti) with
    | none => right; simp [rates_loop, hp]
    | some prev =>
      cases ha : s a with
      | none => right; simp [rates_loop, hp, ha]
      | some today =>
        rcases ih with ⟨rs, hok⟩ | herr
        · exact Or.inl ⟨today / prev :: rs, by simp [rates_loop, hp, ha, hok]⟩
        · right; simp [rates_loop, hp, ha, herr]

/-- If any listed day (or its look-back partner) is absent from the series,
the rate-collection loop fails with the missing-day error. -/
theorem rates_loop_missing (s : Nat → Option ℚ) (ti : Nat) :
    ∀ l : List Nat, (∃ i ∈ l, s (i - ti) = none ∨ s i = none) →
      rates_loop s ti l = Except.error CalibError.dataError := by
  intro l
  induction l with
  | nil => rintro ⟨i, hi, _⟩; simp at hi
  | cons a t ih =>
    rintro ⟨i, hi, hnd⟩
    rcases List.mem_cons.mp hi with rfl | hit
    · rcases hnd with h | h
      · cases ha : s i <;> simp [rates_loop, h, ha]
      · cases hp : s (i - ti) <;> simp [rates_loop, h, hp]
    · cases hp : s (a - ti) <;> cases ha : s a <;>
        simp [rates_loop, hp, ha, ih ⟨i, hit, hnd⟩]

/-- One growth step of the witness series `wGrowth`. -/
theorem wGrowth_step (i : Nat) (h : 3 ≤ i) :
    wGrowth i = some (2 * (2 : ℚ) ^ ((i - 3) / 3)) := by
  have h3 : i / 3 = (i - 3) / 3 + 1 := by omega
  show some ((2 : ℚ) ^ (i / 3)) = some (2 * (2 : ℚ) ^ ((i - 3) / 3))
  rw [h3, pow_succ, mul_comm]

/-- Scoring the witness series: mean rate 2 and mean squared deviation 0. -/
theorem wGrowth_infection_rate : infection_rate wGrowth 2 3 = Except.ok (2, 0) := by
  have hloop := rates_loop_ok wGrowth 3 2 ((List.range 15).map (fun j => j + 25)) ?_
  · rw [infection_rate, hloop]
    simp [List.map_replicate, List.sum_replicate]
    norm_num
  · intro i hi
    simp only [List.mem_map, List.mem_range] at hi
    obtain ⟨j, _, rfl⟩ := hi
    exact ⟨(2 : ℚ) ^ ((j + 25 - 3) / 3), by positivity, rfl, wGrowth_step (j + 25) (by omega)⟩

/-- C3 counterexample: a trial whose simulator subprocess exits with status 1
but whose output file parses to a perfect-growth series is scored
`Except.ok 0` — the objective proceeds to parse the output and returns a score
instead of failing with `ExternalProcessError`. -/
theorem objective_unconstrained_ignores_nonzero_exit :
    objective_unconstrained ⟨0, "S", "Berlin", 1 / 500000⟩ ⟨1, some wGrowth⟩ = Except.ok 0 := by
  simp only [objective_unconstrained, wGrowth_infection_rate]

/-- C3 (amended): the objectives call `subprocess.run` without `check=True`
and never inspect the returned exit status, so the trial result is a function
of the output file alone — a non-zero exit neither raises
`ExternalProcessError` (no such failure is ever produced) nor stops the code
from parsing the output file. -/
theorem objective_unconstrained_exit_independent :
    ∀ (ctx : TrialCtx) (env env' : SimEnv), env.infectionsOut = env'.infectionsOut →
      objective_unconstrained ctx env = objective_unconstrained ctx env'
      ∧ objective_unconstrained ctx env ≠ Except.error CalibError.externalProcessError := by
  intro ctx env env' h
  refine ⟨by simp only [objective_unconstrained, h], ?_⟩
  simp only [objective_unconstrained]
  cases henv : env.infectionsOut with
  | none => simp
  | some s =>
    rcases rates_loop_cases s 3 ((List.range 15).map (fun j => j + 25)) with ⟨rs, hok⟩ | herr
    · simp [infection_rate, hok]
    · simp [infection_rate, herr]

/-- Witness for `objective_unconstrained_exit_independent`: two environments
differing only in exit status (2 versus 5) at a concrete trial. -/
theorem objective_unconstrained_exit_independent_witness :
    objective_unconstrained ⟨0, "S", "Berlin", 1 / 500000⟩ ⟨2, some wGrowth⟩
        = objective_unconstrained ⟨0, "S", "Berlin", 1 / 500000⟩ ⟨5, some wGrowth⟩
    ∧ objective_unconstrained ⟨0, "S", "Berlin", 1 / 500000⟩ ⟨2, some wGrowth⟩
        ≠ Except.error CalibError.externalProcessError :=
  objective_unconstrained_exit_independent ⟨0, "S", "Berlin", 1 / 500000⟩
    ⟨2, some wGrowth⟩ ⟨5, some wGrowth⟩ rfl

/-- C7: on any series with exact twofold growth every three days (positive
values) over the sampled range, `infection_rate` with target rate 2 and
interval 3 returns mean ratio exactly 2 and mean squared deviation exactly 0;
and whenever one of the requested day indices 22..39 is absent from the
series, it fails (with the missing-day error). -/
theorem infection_rate_growth :
    (∀ s : Nat → Option ℚ,
      (∀ i, 25 ≤ i → i ≤ 39 → ∃ v, 0 < v ∧ s (i - 3) = some v ∧ s i = some (2 * v)) →
      infection_rate s 2 3 = Except.ok (2, 0))
    ∧ (∀ (s : Nat → Option ℚ) (d : Nat), 22 ≤ d → d ≤ 39 → s d = none →
      infection_rate s 2 3 = Except.error CalibError.dataError) := by
  constructor
  · intro s h
    have hloop := rates_loop_ok s 3 2 ((List.range 15).map (fun j => j + 25)) ?_
    · rw [infection_rate, hloop]
      simp [List.map_replicate, List.sum_replicate]
      norm_num
    · intro i hi
      simp only [List.mem_map, List.mem_range] at hi
      obtain ⟨j, hj, rfl⟩ := hi
      obtain ⟨v, hv, hprev, htoday⟩ := h (j + 25) (by omega) (by omega)
      exact ⟨v, ne_of_gt hv, hprev, htoday⟩
  · intro s d h1 h2 hnone
    have hmem : ∃ i ∈ (List.range 15).map (fun j => j + 25), s (i - 3) = none ∨ s i = none := by
      by_cases hc : 25 ≤ d
      · refine ⟨d, ?_, Or.inr hnone⟩
        simp only [List.mem_map, List.mem_range]
        exact ⟨d - 25, by omega, by omega⟩
      · refine ⟨d + 3, ?_, Or.inl ?_⟩
        · simp only [List.mem_map, List.mem_range]
          exact ⟨d + 3 - 25, by omega, by omega⟩
        · have hd : d + 3 - 3 = d := by omega
          rw [hd]; exact hnone
    rw [infection_rate, rates_loop_missing s 3 _ hmem]

/-- Witness for `infection_rate_growth`: the twofold-growth series `wGrowth`
yields `(2, 0)`, and the everywhere-missing series fails. -/
theorem infection_rate_growth_witness :
    infection_rate wGrowth 2 3 = Except.ok (2, 0)
    ∧ infection_rate (fun _ => none) 2 3 = Except.error CalibError.dataError := by
  constructor
  · apply infection_rate_growth.1
    intro i hi _
    exact ⟨(2 : ℚ) ^ ((i - 3) / 3), by positivity, rfl, wGrowth_step i (by omega)⟩
  · exact infection_rate_growth.2 (fun _ => none) 25 (by omega) (by omega) rfl

/-- C2 counterexample: both inputs contain the value zero, yet
`mean_squared_log_error` succeeds with value 0 (sklearn computes with
`log(1+x)` and only rejects strictly negative values) instead of failing
with `DomainError`. -/
theorem msle_zero_accepted : mean_squared_log_error [0] [0] = Except.ok 0 := by
  simp [mean_squared_log_error]

/-- C2 (amended): for equal-length sequences with no negative entry the value
is the mean over i of `(ln(1 + actual i) - ln(1 + predicted i))^2` — sklearn's
log1p-based formula, not a difference of plain logarithms — and the
computation fails exactly when an input contains a strictly negative value;
zeros are accepted. -/
theorem mean_squared_log_error_spec :
    ∀ t p : List ℚ, t.length = p.length →
      ((∀ x ∈ t, 0 ≤ x) → (∀ x ∈ p, 0 ≤ x) →
        mean_squared_log_error t p = Except.ok
          ((((t.zip p).map fun q =>
              (Real.log (1 + (q.1 : ℝ)) - Real.log (1 + (q.2 : ℝ))) ^ 2).sum) / (t.length : ℝ)))
      ∧ (((∃ x ∈ t, x < 0) ∨ (∃ x ∈ p, x < 0)) →
        mean_squared_log_error t p = Except.error CalibError.domainError) := by
  intro t p hlen
  constructor
  · intro ht hp
    have h2 : (t.any (fun x => x < 0) || p.any (fun x => x < 0)) = false := by
      rw [Bool.or_eq_false_iff]
      constructor <;> rw [List.any_eq_false] <;> intro x hx <;> simp
      · exact ht x hx
      · exact hp x hx
    rw [mean_squared_log_error, if_neg (by simp [hlen]), h2]
    simp
  · intro hneg
    have h2 : (t.any (fun x => x < 0) || p.any (fun x => x < 0)) = true := by
      rw [Bool.or_eq_true]
      rcases hneg with ⟨x, hx, hlt⟩ | ⟨x, hx, hlt⟩
      · exact Or.inl (by rw [List.any_eq_true]; exact ⟨x, hx, by simpa using hlt⟩)
      · exact Or.inr (by rw [List.any_eq_true]; exact ⟨x, hx, by simpa using hlt⟩)
    rw [mean_squared_log_error, if_neg (by simp [hlen]), h2]
    simp

/-- Witness for `mean_squared_log_error_spec` at concrete inputs. -/
theorem mean_squared_log_error_spec_witness :
    mean_squared_log_error [1] [2] = Except.ok
      (((([(1 : ℚ)].zip [(2 : ℚ)]).map fun q =>
          (Real.log (1 + (q.1 : ℝ)) - Real.log (1 + (q.2 : ℝ))) ^ 2).sum)
        / (([(1 : ℚ)].length) : ℝ))
    ∧ mean_squared_log_error [-1] [1] = Except.error CalibError.domainError :=
  ⟨(mean_squared_log_error_spec [1] [2] rfl).1 (by norm_num) (by norm_num),
   (mean_squared_log_error_spec [-1] [1] rfl).2 (Or.inl ⟨-1, by norm_num, by norm_num⟩)⟩

/-- Entry `i` of a mapped zip of two lists, read with `getD`. -/
theorem zip_map_getD (g : ℚ × ℚ → Fp) :
    ∀ (x y : List ℚ) (i : Nat), i < x.length → i < y.length →
      ((x.zip y).map g).getD i Fp.nan = g (x.getD i 0, y.getD i 0) := by
  intro x
  induction x with
  | nil => intro y i h _; simp at h
  | cons a t ih =>
    intro y i h1 h2
    cases y with
    | nil => simp at h2
    | cons b u =>
      cases i with
      | zero => simp
      | succ j =>
        simp only [List.zip_cons_cons, List.map_cons, List.getD_cons_succ]
        exact ih u j (by simpa using h1) (by simpa using h2)

/-- The `j`-th entry computed by the loop of `percentage_error`. -/
theorem percentage_error_getD (a p : List ℚ) (i : Nat)
    (hlen : a.length = p.length) (hi : i < a.length) :
    (percentage_error a p).getD i Fp.nan =
      if 15 ≤ |a.getD i 0|
      then Fp.div (Fp.finite (a.getD i 0 - p.getD i 0)) (Fp.finite (a.getD i 0))
      else Fp.div (Fp.finite (a.getD i 0 - p.getD i 0))
        (Fp.finite (a.sum / (a.length : ℚ))) := by
  rw [percentage_error, zip_map_getD _ a p i hi (hlen ▸ hi)]

/-- C5: entry `i` of `percentage_error` is `(actual i - predicted i) / actual i`
when `|actual i| ≥ 15` and `(actual i - predicted i) / mean actual` otherwise;
on `actual = [10, 100]`, `predicted = [12, 80]` entry 0 uses the denominator
`mean actual = 55` and entry 1 the denominator `100`. -/
theorem percentage_error_spec :
    (∀ (a p : List ℚ) (i : Nat), a.length = p.length → i < a.length →
      (15 ≤ |a.getD i 0| →
        (percentage_error a p).getD i Fp.nan
          = Fp.finite ((a.getD i 0 - p.getD i 0) / a.getD i 0))
      ∧ (|a.getD i 0| < 15 → a.sum / (a.length : ℚ) ≠ 0 →
        (percentage_error a p).getD i Fp.nan
          = Fp.finite ((a.getD i 0 - p.getD i 0) / (a.sum / (a.length : ℚ)))))
    ∧ percentage_error [10, 100] [12, 80]
        = [Fp.finite (-(2 / 55)), Fp.finite (1 / 5)] := by
  constructor
  · intro a p i hlen hi
    constructor
    · intro habs
      have hne : a.getD i 0 ≠ 0 := by
        intro h0; rw [h0] at habs; norm_num at habs
      rw [percentage_error_getD a p i hlen hi, if_pos habs]
      simp only [Fp.div]
      rw [if_neg hne]
    · intro habs hm
      rw [percentage_error_getD a p i hlen hi, if_neg (not_le.mpr habs)]
      simp only [Fp.div]
      rw [if_neg hm]
  · simp [percentage_error, Fp.div]
    norm_num

/-- Witness for the universal part of `percentage_error_spec`. -/
theorem percentage_error_spec_witness :
    (percentage_error [10, 100] [12, 80]).getD 1 Fp.nan = Fp.finite (1 / 5) := by
  have h := (percentage_error_spec.1 [10, 100] [12, 80] 1 rfl (by norm_num)).1 (by norm_num)
  exact h.trans (by norm_num)

/-- C10: when every entry of `actual` has magnitude below 15 and the mean of
`actual` is zero, every entry of `percentage_error` falls into the small-value
fallback branch and divides by the zero mean: numpy silently produces
non-finite values (inf or NaN) for every entry rather than raising. -/
theorem percentage_error_zero_mean :
    ∀ a p : List ℚ, a.length = p.length → (∀ x ∈ a, |x| < 15) →
      a.sum / (a.length : ℚ) = 0 →
      ∀ y ∈ percentage_error a p, y.isFinite = false := by
  intro a p _ hsmall hmean y hy
  rw [percentage_error, List.mem_map] at hy
  obtain ⟨q, hq, rfl⟩ := hy
  obtain ⟨q1, q2⟩ := q
  have hlt := hsmall q1 (List.of_mem_zip hq).1
  show (if 15 ≤ |q1| then Fp.div (Fp.finite (q1 - q2)) (Fp.finite q1)
    else Fp.div (Fp.finite (q1 - q2))
      (Fp.finite (a.sum / (a.length : ℚ)))).isFinite = false
  rw [if_neg (not_le.mpr hlt), hmean]
  simp only [Fp.div, if_pos rfl]
  split_ifs <;> rfl

/-- Witness for `percentage_error_zero_mean` at `actual = [0, 0]`,
`predicted = [1, 1]`. -/
theorem percentage_error_zero_mean_witness :
    ((percentage_error [0, 0] [1, 1]).getD 0 Fp.nan).isFinite = false := by
  apply percentage_error_zero_mean [0, 0] [1, 1] rfl (by norm_num) (by norm_num)
  have hv : percentage_error [0, 0] [1, 1] = [Fp.negInf, Fp.negInf] := by
    simp [percentage_error, Fp.div]
  rw [hv]
  simp

/-- Summing a uniformly scaled list scales the sum. -/
theorem sum_map_mul (k : ℚ) (l : List ℚ) : (l.map (fun x => k * x)).sum = k * l.sum := by
  induction l with
  | nil => simp
  | cons a t ih => simp [ih, mul_add]

/-- Dropping the `NaN` entries commutes with scaling the valid entries. -/
theorem filterMap_id_map_option (k : ℚ) (l : List (Option ℚ)) :
    (l.map (Option.map (fun x => k * x))).filterMap id
      = (l.filterMap id).map (fun x => k * x) := by
  rw [List.filterMap_map, List.map_filterMap]
  simp [Function.comp]

/-- Scaling the valid entries preserves which entries are valid. -/
theorem all_isSome_map_option (k : ℚ) (l : List (Option ℚ)) :
    (l.map (Option.map (fun x => k * x))).all Option.isSome = l.all Option.isSome := by
  rw [List.all_map]
  congr 1
  funext o
  cases o <;> rfl

/-- Scaling a cumulative series scales its first difference. -/
theorem diff1_map_mul (k : ℚ) (l : List ℚ) :
    diff1 (l.map (fun x => k * x)) = (diff1 l).map (Option.map (fun x => k * x)) := by
  cases l with
  | nil => rfl
  | cons a t =>
    simp only [List.map_cons, diff1, List.map_zipWith]
    rw [← List.map_cons (fun x => k * x) a t, List.zipWith_map]
    congr 1
    have hfun : (fun (u v : ℚ) => some (k * v - k * u))
        = (fun (u v : ℚ) => Option.map (fun x => k * x) (some (v - u))) := by
      funext u v
      simp [mul_sub]
    rw [hfun]

/-- One rolling-window mean of a uniformly scaled series. -/
theorem windowMeanO_map_mul (w : Nat) (k : ℚ) (l : List (Option ℚ)) (i : Nat) :
    windowMeanO w (l.map (Option.map (fun x => k * x))) i
      = Option.map (fun x => k * x) (windowMeanO w l i) := by
  simp only [windowMeanO]
  by_cases h1 : w ≤ i + 1
  · rw [if_pos h1, if_pos h1]
    rw [← List.map_drop, ← List.map_take, all_isSome_map_option]
    by_cases h2 : ((l.drop (i + 1 - w)).take w).all Option.isSome
    · rw [if_pos h2, if_pos h2, filterMap_id_map_option, sum_map_mul]
      simp [mul_div_assoc]
    · rw [if_neg h2, if_neg h2]
      rfl
  · rw [if_neg h1, if_neg h1]
    rfl

/-- Rolling-mean smoothing of a uniformly scaled series. -/
theorem rollingMeanO_map_mul (w : Nat) (k : ℚ) (l : List (Option ℚ)) :
    rollingMeanO w (l.map (Option.map (fun x => k * x)))
      = (rollingMeanO w l).map (Option.map (fun x => k * x)) := by
  simp only [rollingMeanO, List.length_map, List.map_map]
  exact List.map_congr_left (fun i _ => windowMeanO_map_mul w k l i)

/-- The `NaN`-skipping mean of a uniformly scaled series. -/
theorem meanO_map_mul (k : ℚ) (l : List (Option ℚ)) :
    meanO (l.map (Option.map (fun x => k * x))) = k * meanO l := by
  rw [meanO, meanO, filterMap_id_map_option, sum_map_mul, List.length_map, mul_div_assoc]

/-- Normalization by the own-series mean cancels a nonzero uniform scale. -/
theorem normalizeO_map_mul (k : ℚ) (hk : k ≠ 0) (l : List (Option ℚ)) :
    normalizeO (l.map (Option.map (fun x => k * x))) = normalizeO l := by
  rw [normalizeO, normalizeO, meanO_map_mul, List.map_map]
  apply List.map_congr_left
  intro o _
  cases o with
  | none => rfl
  | some x =>
    simp only [Function.comp, Option.map_some']
    congr 1
    exact mul_div_mul_left x (meanO l) hk

/-- C6: the Data Loader's normalized series (smoothed series divided by its
own full-series mean) is invariant under scaling the input series by any
constant `k > 0`: the whole `diff` / rolling-mean / normalize pipeline gives
identical output, `NaN` positions included. -/
theorem casesNorm_scale_invariant :
    ∀ (w : Nat) (k : ℚ), 0 < k → ∀ cumulative : List ℚ,
      casesNormOf w (cumulative.map (fun x => k * x)) = casesNormOf w cumulative := by
  intro w k hk cum
  rw [casesNormOf, casesNormOf, diff1_map_mul, rollingMeanO_map_mul,
    normalizeO_map_mul k (ne_of_gt hk)]

/-- Witness for `casesNorm_scale_invariant` with `k = 3` on a concrete
cumulative series. -/
theorem casesNorm_scale_invariant_witness :
    casesNormOf 5 ([0, 1, 3, 6, 10, 15, 21].map (fun x => 3 * x))
      = casesNormOf 5 [0, 1, 3, 6, 10, 15, 21] :=
  casesNorm_scale_invariant 5 3 (by norm_num) [0, 1, 3, 6, 10, 15, 21]

/-- Dropping the `NaN` markers from an all-valid constant series. -/
theorem filterMap_id_replicate_some (c : ℚ) :
    ∀ n, (List.replicate n (some c)).filterMap id = List.replicate n c := by
  intro n
  induction n with
  | zero => rfl
  | succ m ih => simp [List.replicate_succ, ih]

/-- Rolling-mean smoothing of a constant series, characterised entrywise:
positions with a full trailing window hold the constant, earlier positions
hold the missing marker. -/
theorem rollingMeanO_replicate (c : ℚ) (n w : Nat) (hw : 0 < w) :
    rollingMeanO w (List.replicate n (some c))
      = (List.range n).map (fun i => if w ≤ i + 1 then some c else none) := by
  rw [rollingMeanO, List.length_replicate]
  apply List.map_congr_left
  intro i hi
  rw [List.mem_range] at hi
  simp only [windowMeanO]
  by_cases h1 : w ≤ i + 1
  · rw [if_pos h1, if_pos h1]
    rw [List.drop_replicate, List.take_replicate]
    have hmin : min w (n - (i + 1 - w)) = w := by omega
    rw [hmin]
    have hall : (List.replicate w (some c)).all Option.isSome = true := by simp
    rw [if_pos hall, filterMap_id_replicate_some, List.sum_replicate, nsmul_eq_mul,
      mul_div_cancel_left₀ c (by exact_mod_cast Nat.pos_iff_ne_zero.mp hw)]
  · rw [if_neg h1, if_neg h1]

/-- The valid entries of the smoothed constant series form a constant list of
length `n - (w - 1)`. -/
theorem filterMap_threshold (c : ℚ) (w : Nat) :
    ∀ n, ((List.range n).map (fun i => if w ≤ i + 1 then some c else none)).filterMap id
      = List.replicate (n - (w - 1)) c := by
  intro n
  induction n with
  | zero => simp
  | succ m ih =>
    rw [List.range_succ, List.map_append, List.filterMap_append, ih]
    by_cases h : w ≤ m + 1
    · have hm : m + 1 - (w - 1) = (m - (w - 1)) + 1 := by omega
      rw [hm, List.replicate_succ']
      simp [h]
    · have h0 : m + 1 - (w - 1) = 0 := by omega
      have h1 : m - (w - 1) = 0 := by omega
      rw [h0, h1]
      simp [h]

/-- C8: the trailing rolling mean over window `w` of a constant series of
length `n ≥ w` holds that same constant at every position with a full window;
the first `w - 1` positions hold the missing marker, not zeros — and the
missing entries are skipped by the mean used downstream, so that mean is the
constant itself, as it would not be had the gaps been zero-filled. -/
theorem rollingMean_const_spec :
    ∀ (c : ℚ) (n w : Nat), 0 < w → w ≤ n →
      (∀ i, i < n → (rollingMeanO w (List.replicate n (some c))).getD i none
          = if w ≤ i + 1 then some c else none)
      ∧ meanO (rollingMeanO w (List.replicate n (some c))) = c := by
  intro c n w hw hn
  constructor
  · intro i hi
    rw [rollingMeanO_replicate c n w hw]
    simp [List.getElem?_range hi]
  · rw [rollingMeanO_replicate c n w hw, meanO, filterMap_threshold,
      List.sum_replicate, List.length_replicate, nsmul_eq_mul,
      mul_div_cancel_left₀ c (by exact_mod_cast (by omega : n - (w - 1) ≠ 0))]

/-- Witness for `rollingMean_const_spec` with the default window 5 on a
constant series of six entries of value 7. -/
theorem rollingMean_const_spec_witness :
    (rollingMeanO 5 (List.replicate 6 (some (7 : ℚ)))).getD 4 none = some 7
    ∧ (rollingMeanO 5 (List.replicate 6 (some (7 : ℚ)))).getD 2 none = none
    ∧ meanO (rollingMeanO 5 (List.replicate 6 (some (7 : ℚ)))) = 7 := by
  have h := rollingMean_const_spec 7 6 5 (by norm_num) (by norm_num)
  exact ⟨(h.1 4 (by norm_num)).trans (by norm_num),
    (h.1 2 (by norm_num)).trans (by norm_num), h.2⟩
